import Mathlib

/-!
Verification of the training-loop repository (src/parser.py and
src/modules/trainer.py) against its natural-language specification.

The embedding is a shallow, trace-based translation of the two source
files.  The external collaborators of the `Trainer` (the neural model,
the optimizer, the loss criterion, the metric accumulator and the
imported `mean_iou_score` helper) are abstract function fields of the
`Trainer` record, exactly mirroring the objects handed to
`Trainer.__init__`.  Every observable side effect of the code (gradient
zeroing, optimizer steps, backward calls, metric updates, scalar logging
through the writer, checkpoint saves and console prints) is recorded as
an `Event` in an append-only trace carried by the state.  Python floats
are modelled as rationals; machine reals do not matter for any claim
considered here.  Fallible paths (the NameError on an empty training
loader at trainer.py line 111, the ValueError raised by np.concatenate
on an empty list at line 165) are modelled by `Option`.
-/

/-- One observable side effect of the trainer.  `addScalar` is a call of
`writer.add_scalar(tag, value, step)`, `save` a call of `Trainer.save`
with the given path, `printScalar` a `print` of a labelled formatted
number (trainer.py lines 48-51), `printMsg` a `print` of a fixed
message. -/
inductive Event where
  | zeroGrad : Event
  | backward : Event
  | optStep : Event
  | metricUpd : List Nat → List Nat → Event
  | addScalar : String → ℚ → Int → Event
  | save : String → Event
  | printScalar : String → ℚ → Event
  | printMsg : String → Event
deriving DecidableEq, Repr

/-- A mini-batch yielded by a data loader: images and ground-truth
segmentation masks (masks abstracted to a flat list of class labels). -/
structure Batch (Img : Type) where
  imgs : Img
  segs : List Nat
deriving DecidableEq, Repr

/-- The `Trainer` of trainer.py.  `P` is the type of model parameters,
`G` the type of the gradient buffer held by the optimizer, `M` the type
of the metric accumulator state, `Img` the type of an image batch.
`predict p i` stands for `model(i)` followed by the softmax/argmax of
lines 96-97 (resp. 154-155), producing discrete labels; `criterion p i s`
is the scalar loss of the forward pass on parameters `p`; `stepFn` is
`optimizer.step`, `zeroFn` the zeroed buffer left by
`optimizer.zero_grad`, `backFn` the gradient accumulation performed by
`loss.backward`; `mean_iou_score` is the helper imported from
mean_iou_evaluate.py (external to this repository). -/
structure Trainer (P G M Img : Type) where
  predict : P → Img → List Nat
  criterion : P → Img → List Nat → ℚ
  stepFn : P → G → P
  zeroFn : G
  backFn : G → P → Img → List Nat → G
  accumulate_gradient : Nat
  metricResetFn : M
  metricUpdateFn : M → List Nat → List Nat → M
  metricScoreFn : M → ℚ
  mean_iou_score : List Nat → List Nat → ℚ
  save_dir : String

/-- The mutable state threaded through the trainer: model parameters,
the gradient buffer of the optimizer, the metric accumulator, the
train/eval mode flag set by `model.train()` / `model.eval()`, and the
trace of observable events emitted so far. -/
structure TState (P G M : Type) where
  params : P
  grads : G
  metric : M
  training : Bool
  trace : List Event
deriving DecidableEq, Repr

/-- `os.path.join` for the two-component paths built by trainer.py. -/
def osPathJoin (a b : String) : String := a ++ "/" ++ b

/-- Accumulator of the training loop of `_run_one_epoch` (lines 78-109):
state, the running iteration counter `iters`, and the running loss sum
`batch_loss`. -/
structure RunAcc (P G M : Type) where
  st : TState P G M
  iters : Int
  batch_loss : ℚ

/-- Body of the training loop of `_run_one_epoch` for the batch of index
`idx` (trainer.py lines 78-109).  The predictions used by the metric
update are the tensor computed at line 85, i.e. with the parameters the
model had at the start of the batch, before any optimizer step of this
batch.  The tqdm progress-bar postfix update of lines 107-109 is
display-only and not modelled; Python raises ZeroDivisionError at line
89 when `accumulate_gradient` is zero, a case excluded by hypothesis in
every theorem about this loop. -/
def runBatch {P G M Img : Type} (T : Trainer P G M Img) (idx : Nat)
    (b : Batch Img) (a : RunAcc P G M) : RunAcc P G M :=
  let iters := a.iters + 1
  let p0 := a.st.params
  let loss := T.criterion p0 b.imgs b.segs
  let st := a.st
  let st := if idx % T.accumulate_gradient = 0 then
      { st with grads := T.zeroFn, trace := st.trace ++ [Event.zeroGrad] }
    else st
  let st := { st with
    grads := T.backFn st.grads p0 b.imgs b.segs
    trace := st.trace ++ [Event.backward] }
  let st := if (idx + 1) % T.accumulate_gradient = 0 then
      { st with
        params := T.stepFn st.params st.grads
        trace := st.trace ++ [Event.optStep] }
    else st
  let preds := T.predict p0 b.imgs
  let st := { st with
    metric := T.metricUpdateFn st.metric preds b.segs
    trace := st.trace ++ [Event.metricUpd preds b.segs] }
  let batch_loss := a.batch_loss + loss
  let st := { st with trace :=
      st.trace ++ [Event.addScalar "loss/train_loss" loss iters] }
  ⟨st, iters, batch_loss⟩

/-- The training loop of `_run_one_epoch`, folding `runBatch` over the
enumerated batches starting at index `idx`. -/
def runLoop {P G M Img : Type} (T : Trainer P G M Img) :
    Nat → List (Batch Img) → RunAcc P G M → RunAcc P G M
  | _, [], a => a
  | idx, b :: rest, a => runLoop T (idx + 1) rest (runBatch T idx b a)

/-- `Trainer._run_one_epoch` (trainer.py lines 57-118).  Returns
`(average loss, metric score, iters)` together with the final state.
With an empty loader the Python code raises a NameError at line 111
(the loop variable `idx` was never bound), modelled by `none`. -/
def runOneEpoch {P G M Img : Type} (T : Trainer P G M Img) (epoch : Nat)
    (iters : Int) (st : TState P G M) (batches : List (Batch Img)) :
    Option (ℚ × ℚ × Int × TState P G M) :=
  match batches with
  | [] => none
  | _ :: _ =>
    let n := batches.length
    let st := { st with training := true, metric := T.metricResetFn }
    let a := runLoop T 0 batches ⟨st, iters, 0⟩
    let st := a.st
    let st := if (n - 1) % 4 = 0 then
        { st with
          params := T.stepFn st.params st.grads
          grads := T.zeroFn
          trace := st.trace ++ [Event.optStep, Event.zeroGrad] }
      else st
    let score := T.metricScoreFn st.metric
    let st := { st with trace :=
        st.trace ++ [Event.addScalar "mIoU/train_miou" score (epoch : Int)] }
    some (a.batch_loss / (n : ℚ), score, a.iters, st)

/-- Accumulator of the validation loop of `_eval_one_epoch` (lines
141-163): state, iteration counter, running loss sum, and the buffered
per-batch predictions and ground truths. -/
structure EvalAcc (P G M : Type) where
  st : TState P G M
  iters : Int
  batch_loss : ℚ
  val_preds : List (List Nat)
  val_segs : List (List Nat)

/-- Body of the validation loop of `_eval_one_epoch` (trainer.py lines
141-163).  No backward call, no optimizer call: only the loss, the
buffered predictions/ground truths and the logged scalar. -/
def evalBatch {P G M Img : Type} (T : Trainer P G M Img) (b : Batch Img)
    (a : EvalAcc P G M) : EvalAcc P G M :=
  let iters := a.iters + 1
  let loss := T.criterion a.st.params b.imgs b.segs
  let preds := T.predict a.st.params b.imgs
  let val_preds := a.val_preds ++ [preds]
  let val_segs := a.val_segs ++ [b.segs]
  let batch_loss := a.batch_loss + loss
  let st := { a.st with trace :=
      a.st.trace ++ [Event.addScalar "loss/val_loss" loss iters] }
  ⟨st, iters, batch_loss, val_preds, val_segs⟩

/-- The validation loop of `_eval_one_epoch`. -/
def evalLoop {P G M Img : Type} (T : Trainer P G M Img) :
    List (Batch Img) → EvalAcc P G M → EvalAcc P G M
  | [], a => a
  | b :: rest, a => evalLoop T rest (evalBatch T b a)

/-- `Trainer._eval_one_epoch` (trainer.py lines 120-176).  Returns
`(average loss, epoch mIoU, iters, updated best_iou)` together with the
final state.  With an empty loader the Python code raises a ValueError
at line 165 (np.concatenate of an empty list), modelled by `none`. -/
def evalOneEpoch {P G M Img : Type} (T : Trainer P G M Img) (epoch : Nat)
    (iters : Int) (best_iou : ℚ) (st : TState P G M)
    (batches : List (Batch Img)) :
    Option (ℚ × ℚ × Int × ℚ × TState P G M) :=
  match batches with
  | [] => none
  | _ :: _ =>
    let n := batches.length
    let st := { st with training := false, metric := T.metricResetFn }
    let a := evalLoop T batches ⟨st, iters, 0, [], []⟩
    let st := a.st
    let val_preds := a.val_preds.flatten
    let val_segs := a.val_segs.flatten
    let val_iou := T.mean_iou_score val_preds val_segs
    let st := { st with trace :=
        st.trace ++ [Event.addScalar "mIoU/val_miou" val_iou (epoch : Int)] }
    let r : ℚ × TState P G M :=
      if best_iou < val_iou then
        (val_iou, { st with trace := st.trace ++
          [Event.printMsg "Best model saved!",
           Event.save (osPathJoin T.save_dir "model_best.pth.tar")] })
      else (best_iou, st)
    some (a.batch_loss / (n : ℚ), val_iou, a.iters, r.1, r.2)

/-- The epoch loop of `Trainer.fit` (trainer.py lines 41-55), recursing
on the number of remaining epochs; `epoch` is the current 1-based epoch
number.  Each iteration trains one epoch, evaluates one epoch, prints
the four summary lines and a blank line, and saves the numbered
checkpoint. -/
def fitEpochs {P G M Img : Type} (T : Trainer P G M Img)
    (trainB valB : Nat → List (Batch Img)) :
    Nat → Nat → Int → Int → ℚ → TState P G M → Option (TState P G M)
  | 0, _, _, _, _, st => some st
  | rem + 1, epoch, iters, val_iters, best_iou, st => do
    let (train_loss, train_iou, iters, st) ←
      runOneEpoch T epoch iters st (trainB epoch)
    let (val_loss, val_iou, val_iters, best_iou, st) ←
      evalOneEpoch T epoch val_iters best_iou st (valB epoch)
    let st := { st with trace := st.trace ++
      [Event.printScalar "Train loss:" train_loss,
       Event.printScalar "Train Mean IOU:" train_iou,
       Event.printScalar "Valid loss:" val_loss,
       Event.printScalar "Valid Mean IOU:" val_iou,
       Event.printMsg ""] }
    let st := { st with trace := st.trace ++
      [Event.save (osPathJoin T.save_dir
        ("model_" ++ toString epoch ++ ".pth.tar"))] }
    fitEpochs T trainB valB rem (epoch + 1) iters val_iters best_iou st

/-- `Trainer.fit` (trainer.py lines 34-55): prints the start banner,
initialises `iters = -1`, `val_iters = -1`, `best_iou = 0.0`, and runs
the epoch loop for epochs 1 through `epochs`.  The Python method returns
`None`, modelled by the `Unit` component of the result.  `trainB e` and
`valB e` are the batches yielded by the train/validation loaders during
epoch `e`. -/
def fit {P G M Img : Type} (T : Trainer P G M Img) (epochs : Nat)
    (trainB valB : Nat → List (Batch Img)) (st : TState P G M) :
    Option (Unit × TState P G M) := do
  let st := { st with trace :=
      st.trace ++ [Event.printMsg "===> start training ..."] }
  let st ← fitEpochs T trainB valB epochs 1 (-1) (-1) 0 st
  return ((), st)

/-- The flat configuration record produced by `arg_parse` in
src/parser.py.  Floats are modelled as rationals. -/
structure Args where
  data_dir : String
  workers : Int
  save_dir : String
  pretrained : Bool
  gpu : Int
  epoch : Int
  val_epoch : Int
  train_batch : Int
  test_batch : Int
  lr : ℚ
  weight_decay : ℚ
  resume : String
  random_seed : Int
deriving DecidableEq, Repr

/-- `arg_parse` of src/parser.py applied to an empty command line: with
no flags given, every option takes the default declared in its
`add_argument` call (the argparse machinery itself is external library
code).  `os.path.join` applied to the single component `hw2_data`
returns it unchanged; `--pretrained` is a `store_true` flag so its
default is false; `--weight-decay` stores to the attribute
`weight_decay`. -/
def arg_parse : Args :=
  { data_dir := "hw2_data"
    workers := 4
    save_dir := "models"
    pretrained := false
    gpu := 0
    epoch := 100
    val_epoch := 1
    train_batch := 32
    test_batch := 32
    lr := 0.0002
    weight_decay := 0.0005
    resume := ""
    random_seed := 42 }

/-- Control events: gradient zeroing, backward calls and optimizer
steps.  Projecting a trace onto these isolates the gradient-accumulation
behaviour of the training loop. -/
def Event.isCtrl : Event → Bool
  | Event.zeroGrad => true
  | Event.backward => true
  | Event.optStep => true
  | _ => false

/-- Projection of a trace onto control events. -/
def ctrl (tr : List Event) : List Event := tr.filter Event.isCtrl

/-- The control events emitted by the training-loop body for the batch
of 0-based index `i` under `accumulate_gradient = k`: a zeroing exactly
at the start of an accumulation window, a backward call, and an
optimizer step exactly at the end of a window. -/
def ctrlAt (k i : Nat) : List Event :=
  (if i % k = 0 then [Event.zeroGrad] else []) ++ [Event.backward] ++
    (if (i + 1) % k = 0 then [Event.optStep] else [])

/-- The in-loop control events of a training epoch of `n` batches under
`accumulate_gradient = k`. -/
def inLoopCtrl (n k : Nat) : List Event :=
  ((List.range n).map (ctrlAt k)).flatten

/-- Epoch-level phase markers extracted from a trace: the end-of-epoch
training mIoU log, the end-of-epoch validation mIoU log, a summary print
line, and a checkpoint save with its path. -/
inductive Marker where
  | trainEnd : Marker
  | valEnd : Marker
  | summaryLine : Marker
  | saved : String → Marker
deriving DecidableEq, Repr

/-- The marker of a single event, if any. -/
def markerOf (e : Event) : Option Marker :=
  match e with
  | Event.addScalar tag _ _ =>
      if tag = "mIoU/train_miou" then some Marker.trainEnd
      else if tag = "mIoU/val_miou" then some Marker.valEnd
      else none
  | Event.printScalar _ _ => some Marker.summaryLine
  | Event.save p => some (Marker.saved p)
  | _ => none

/-- Projection of a trace onto its phase markers. -/
def markers (tr : List Event) : List Marker := tr.filterMap markerOf

/-- The marker sequence produced by one iteration of the epoch loop of
`fit` for epoch `e`: training end, validation end, a best-model save
when the epoch improved on the best score, the four summary lines, and
the numbered checkpoint save. -/
def epochMarkers (sd : String) (e : Nat) (best : Bool) : List Marker :=
  [Marker.trainEnd, Marker.valEnd] ++
    (if best then [Marker.saved (osPathJoin sd "model_best.pth.tar")] else []) ++
    [Marker.summaryLine, Marker.summaryLine, Marker.summaryLine,
     Marker.summaryLine,
     Marker.saved (osPathJoin sd ("model_" ++ toString e ++ ".pth.tar"))]

/-- The values of the per-iteration training-loss scalars logged in a
trace, in order: one per training batch. -/
def trainLossVals (tr : List Event) : List ℚ :=
  tr.filterMap fun e =>
    match e with
    | Event.addScalar tag v _ =>
        if tag = "loss/train_loss" then some v else none
    | _ => none

/-- The values of the per-epoch validation mIoU scalars logged in a
trace, in order: one per validation epoch. -/
def valIous (tr : List Event) : List ℚ :=
  tr.filterMap fun e =>
    match e with
    | Event.addScalar tag v _ =>
        if tag = "mIoU/val_miou" then some v else none
    | _ => none

/-- A small concrete trainer used to witness the general theorems:
parameters count the optimizer steps taken, gradients and the metric are
trivial, and `accumulate_gradient = 2`. -/
def TW : Trainer Nat Unit Unit Unit :=
  { predict := fun p _ => [p]
    criterion := fun _ _ _ => 1
    stepFn := fun p _ => p + 1
    zeroFn := ()
    backFn := fun _ _ _ _ => ()
    accumulate_gradient := 2
    metricResetFn := ()
    metricUpdateFn := fun _ _ _ => ()
    metricScoreFn := fun _ => 0
    mean_iou_score := fun _ _ => ⟨1, 2, by decide, by decide⟩
    save_dir := "models" }

/-- Initial state for the concrete runs. -/
def stW : TState Nat Unit Unit :=
  { params := 0, grads := (), metric := (), training := false, trace := [] }

/-- A one-batch loader for the concrete runs. -/
def oneBatch : List (Batch Unit) := [⟨(), [0]⟩]

/-- A four-batch loader for the gradient-accumulation scenario of the
specification. -/
def fourBatches : List (Batch Unit) :=
  [⟨(), [0]⟩, ⟨(), [0]⟩, ⟨(), [0]⟩, ⟨(), [0]⟩]

/-- A concrete trainer realising the validation mIoU sequence
0.10, 0.25, 0.20 over three epochs: with `accumulate_gradient = 1` and
one training batch per epoch, each epoch applies two optimizer steps
(the in-loop one and the trailing one), so the parameter counter is 2
after epoch 1, 4 after epoch 2 and 6 after epoch 3; `mean_iou_score`
maps the corresponding validation predictions to 1/10, 1/4 and 1/5,
written as normal-form rational literals. -/
def T5 : Trainer Nat Unit Unit Unit :=
  { predict := fun p _ => [p]
    criterion := fun _ _ _ => 0
    stepFn := fun p _ => p + 1
    zeroFn := ()
    backFn := fun _ _ _ _ => ()
    accumulate_gradient := 1
    metricResetFn := ()
    metricUpdateFn := fun _ _ _ => ()
    metricScoreFn := fun _ => 0
    mean_iou_score := fun ps _ =>
      if ps = [2] then ⟨1, 10, by decide, by decide⟩
      else if ps = [4] then ⟨1, 4, by decide, by decide⟩
      else if ps = [6] then ⟨1, 5, by decide, by decide⟩
      else 0
    save_dir := "models" }

lemma runOneEpoch_nil {P G M Img : Type} (T : Trainer P G M Img)
    (epoch : Nat) (iters : Int) (st : TState P G M) :
    runOneEpoch T epoch iters st [] = none := rfl

lemma evalOneEpoch_nil {P G M Img : Type} (T : Trainer P G M Img)
    (epoch : Nat) (iters : Int) (best : ℚ) (st : TState P G M) :
    evalOneEpoch T epoch iters best st [] = none := rfl

lemma ctrl_append (a b : List Event) : ctrl (a ++ b) = ctrl a ++ ctrl b :=
  List.filter_append _ _

lemma markers_append (a b : List Event) :
    markers (a ++ b) = markers a ++ markers b :=
  List.filterMap_append _ _ _

lemma trainLossVals_append (a b : List Event) :
    trainLossVals (a ++ b) = trainLossVals a ++ trainLossVals b :=
  List.filterMap_append _ _ _

lemma runBatch_st_trace {P G M Img : Type} (T : Trainer P G M Img)
    (idx : Nat) (b : Batch Img) (a : RunAcc P G M) :
    (runBatch T idx b a).st.trace = a.st.trace ++
      ((if idx % T.accumulate_gradient = 0 then [Event.zeroGrad] else []) ++
        [Event.backward] ++
        (if (idx + 1) % T.accumulate_gradient = 0 then [Event.optStep] else []) ++
        [Event.metricUpd (T.predict a.st.params b.imgs) b.segs,
         Event.addScalar "loss/train_loss"
           (T.criterion a.st.params b.imgs b.segs) (a.iters + 1)]) := by
  by_cases h1 : idx % T.accumulate_gradient = 0 <;>
    by_cases h2 : (idx + 1) % T.accumulate_gradient = 0 <;>
      simp [runBatch, h1, h2]

lemma runBatch_iters {P G M Img : Type} (T : Trainer P G M Img)
    (idx : Nat) (b : Batch Img) (a : RunAcc P G M) :
    (runBatch T idx b a).iters = a.iters + 1 := rfl

lemma runBatch_batch_loss {P G M Img : Type} (T : Trainer P G M Img)
    (idx : Nat) (b : Batch Img) (a : RunAcc P G M) :
    (runBatch T idx b a).batch_loss =
      a.batch_loss + T.criterion a.st.params b.imgs b.segs := rfl

lemma projections_runBatchDelta (c1 c2 : Prop) [Decidable c1] [Decidable c2]
    (ps ss : List Nat) (v : ℚ) (i : Int) :
    ctrl ((if c1 then [Event.zeroGrad] else []) ++ [Event.backward] ++
        (if c2 then [Event.optStep] else []) ++
        [Event.metricUpd ps ss, Event.addScalar "loss/train_loss" v i]) =
      ((if c1 then [Event.zeroGrad] else []) ++ [Event.backward] ++
        (if c2 then [Event.optStep] else [])) ∧
    markers ((if c1 then [Event.zeroGrad] else []) ++ [Event.backward] ++
        (if c2 then [Event.optStep] else []) ++
        [Event.metricUpd ps ss, Event.addScalar "loss/train_loss" v i]) = [] ∧
    trainLossVals ((if c1 then [Event.zeroGrad] else []) ++ [Event.backward] ++
        (if c2 then [Event.optStep] else []) ++
        [Event.metricUpd ps ss, Event.addScalar "loss/train_loss" v i]) = [v] := by
  refine ⟨?_, ?_, ?_⟩ <;> (split_ifs <;> rfl)

lemma runLoop_delta {P G M Img : Type} (T : Trainer P G M Img) :
    ∀ (bs : List (Batch Img)) (idx : Nat) (a : RunAcc P G M),
    ∃ Δ, (runLoop T idx bs a).st.trace = a.st.trace ++ Δ ∧
      ctrl Δ = ((List.range' idx bs.length).map
        (ctrlAt T.accumulate_gradient)).flatten ∧
      markers Δ = [] ∧
      (trainLossVals Δ).length = bs.length ∧
      (runLoop T idx bs a).batch_loss =
        a.batch_loss + (trainLossVals Δ).sum ∧
      (runLoop T idx bs a).iters = a.iters + bs.length := by
  intro bs
  induction bs with
  | nil =>
    intro idx a
    exact ⟨[], by simp [runLoop, ctrl, markers, trainLossVals]⟩
  | cons b rest ih =>
    intro idx a
    obtain ⟨Δ', h1, h2, h3, h4, h5, h6⟩ := ih (idx + 1) (runBatch T idx b a)
    obtain ⟨p1, p2, p3⟩ := projections_runBatchDelta
      (idx % T.accumulate_gradient = 0)
      ((idx + 1) % T.accumulate_gradient = 0)
      (T.predict a.st.params b.imgs) b.segs
      (T.criterion a.st.params b.imgs b.segs) (a.iters + 1)
    refine ⟨((if idx % T.accumulate_gradient = 0 then [Event.zeroGrad] else []) ++
        [Event.backward] ++
        (if (idx + 1) % T.accumulate_gradient = 0 then [Event.optStep] else []) ++
        [Event.metricUpd (T.predict a.st.params b.imgs) b.segs,
         Event.addScalar "loss/train_loss"
           (T.criterion a.st.params b.imgs b.segs) (a.iters + 1)]) ++ Δ',
      ?_, ?_, ?_, ?_, ?_, ?_⟩
    · show (runLoop T (idx + 1) rest (runBatch T idx b a)).st.trace = _
      rw [h1, runBatch_st_trace]
      simp [List.append_assoc]
    · rw [ctrl_append, p1, h2, List.length_cons, List.range'_succ]
      simp [ctrlAt, List.append_assoc]
    · rw [markers_append, p2, h3]
      rfl
    · rw [trainLossVals_append, p3]
      simp [h4]
    · show (runLoop T (idx + 1) rest (runBatch T idx b a)).batch_loss = _
      rw [h5, runBatch_batch_loss, trainLossVals_append, p3]
      simp
      ring
    · show (runLoop T (idx + 1) rest (runBatch T idx b a)).iters = _
      rw [h6, runBatch_iters]
      simp [List.length_cons]
      ring

lemma tail_proj_pos (v : ℚ) (e : Int) :
    ctrl [Event.optStep, Event.zeroGrad, Event.addScalar "mIoU/train_miou" v e] =
      [Event.optStep, Event.zeroGrad] ∧
    markers [Event.optStep, Event.zeroGrad,
      Event.addScalar "mIoU/train_miou" v e] = [Marker.trainEnd] ∧
    trainLossVals [Event.optStep, Event.zeroGrad,
      Event.addScalar "mIoU/train_miou" v e] = [] := ⟨rfl, rfl, rfl⟩

lemma tail_proj_neg (v : ℚ) (e : Int) :
    ctrl [Event.addScalar "mIoU/train_miou" v e] = [] ∧
    markers [Event.addScalar "mIoU/train_miou" v e] = [Marker.trainEnd] ∧
    trainLossVals [Event.addScalar "mIoU/train_miou" v e] = [] := ⟨rfl, rfl, rfl⟩

lemma runOneEpoch_spec {P G M Img : Type} (T : Trainer P G M Img)
    (epoch : Nat) (iters : Int) (st : TState P G M) (b : Batch Img)
    (bs : List (Batch Img)) :
    ∃ l s it2 st',
      runOneEpoch T epoch iters st (b :: bs) = some (l, s, it2, st') ∧
      ∃ Δ, st'.trace = st.trace ++ Δ ∧
        l = (trainLossVals Δ).sum / (((b :: bs).length : ℚ)) ∧
        it2 = iters + (b :: bs).length ∧
        ctrl Δ = inLoopCtrl (b :: bs).length T.accumulate_gradient ++
          (if ((b :: bs).length - 1) % 4 = 0
            then [Event.optStep, Event.zeroGrad] else []) ∧
        markers Δ = [Marker.trainEnd] ∧
        (trainLossVals Δ).length = (b :: bs).length := by
  obtain ⟨Δ0, h1, h2, h3, h4, h5, h6⟩ := runLoop_delta T (b :: bs) 0
    ⟨{ st with training := true, metric := T.metricResetFn }, iters, 0⟩
  dsimp only at h1 h5 h6
  rw [zero_add] at h5
  by_cases hc : ((b :: bs).length - 1) % 4 = 0
  · simp only [runOneEpoch, hc, if_true]
    refine ⟨_, _, _, _, rfl, Δ0 ++ [Event.optStep, Event.zeroGrad,
      Event.addScalar "mIoU/train_miou"
        (T.metricScoreFn (runLoop T 0 (b :: bs)
          ⟨{ st with training := true, metric := T.metricResetFn },
            iters, 0⟩).st.metric) ((epoch : Int))],
      ?_, ?_, ?_, ?_, ?_, ?_⟩
    · dsimp only
      rw [h1]
      simp
    · rw [trainLossVals_append, (tail_proj_pos _ _).2.2, List.append_nil, ← h5]
    · exact h6
    · rw [ctrl_append, h2, (tail_proj_pos _ _).1]
      simp [inLoopCtrl, hc, List.range_eq_range']
    · rw [markers_append, h3, (tail_proj_pos _ _).2.1]
      rfl
    · rw [trainLossVals_append, (tail_proj_pos _ _).2.2, List.append_nil]
      exact h4
  · simp only [runOneEpoch, hc, if_false]
    refine ⟨_, _, _, _, rfl, Δ0 ++ [Event.addScalar "mIoU/train_miou"
        (T.metricScoreFn (runLoop T 0 (b :: bs)
          ⟨{ st with training := true, metric := T.metricResetFn },
            iters, 0⟩).st.metric) ((epoch : Int))],
      ?_, ?_, ?_, ?_, ?_, ?_⟩
    · dsimp only
      rw [h1]
      simp
    · rw [trainLossVals_append, (tail_proj_neg _ _).2.2, List.append_nil, ← h5]
    · exact h6
    · rw [ctrl_append, h2, (tail_proj_neg _ _).1]
      simp [inLoopCtrl, hc, List.range_eq_range']
    · rw [markers_append, h3, (tail_proj_neg _ _).2.1]
      rfl
    · rw [trainLossVals_append, (tail_proj_neg _ _).2.2, List.append_nil]
      exact h4

lemma evalBatch_st_trace {P G M Img : Type} (T : Trainer P G M Img)
    (b : Batch Img) (a : EvalAcc P G M) :
    (evalBatch T b a).st.trace = a.st.trace ++
      [Event.addScalar "loss/val_loss"
        (T.criterion a.st.params b.imgs b.segs) (a.iters + 1)] := rfl

lemma evalBatch_fields {P G M Img : Type} (T : Trainer P G M Img)
    (b : Batch Img) (a : EvalAcc P G M) :
    (evalBatch T b a).st.params = a.st.params ∧
    (evalBatch T b a).st.grads = a.st.grads ∧
    (evalBatch T b a).st.metric = a.st.metric ∧
    (evalBatch T b a).st.training = a.st.training ∧
    (evalBatch T b a).iters = a.iters + 1 ∧
    (evalBatch T b a).batch_loss =
      a.batch_loss + T.criterion a.st.params b.imgs b.segs ∧
    (evalBatch T b a).val_preds =
      a.val_preds ++ [T.predict a.st.params b.imgs] ∧
    (evalBatch T b a).val_segs = a.val_segs ++ [b.segs] :=
  ⟨rfl, rfl, rfl, rfl, rfl, rfl, rfl, rfl⟩

lemma evalLoop_delta {P G M Img : Type} (T : Trainer P G M Img) :
    ∀ (bs : List (Batch Img)) (a : EvalAcc P G M),
    ∃ Δ, (evalLoop T bs a).st.trace = a.st.trace ++ Δ ∧
      ctrl Δ = [] ∧
      markers Δ = [] ∧
      (evalLoop T bs a).st.params = a.st.params ∧
      (evalLoop T bs a).st.grads = a.st.grads ∧
      (evalLoop T bs a).st.metric = a.st.metric ∧
      (evalLoop T bs a).st.training = a.st.training ∧
      (evalLoop T bs a).batch_loss = a.batch_loss +
        (bs.map (fun x => T.criterion a.st.params x.imgs x.segs)).sum ∧
      (evalLoop T bs a).val_preds = a.val_preds ++
        bs.map (fun x => T.predict a.st.params x.imgs) ∧
      (evalLoop T bs a).val_segs = a.val_segs ++ bs.map Batch.segs ∧
      (evalLoop T bs a).iters = a.iters + bs.length := by
  intro bs
  induction bs with
  | nil =>
    intro a
    exact ⟨[], by simp [evalLoop, ctrl, markers]⟩
  | cons b rest ih =>
    intro a
    obtain ⟨Δ', h1, h2, h3, h4, h5, h6, h7, h8, h9, h10, h11⟩ :=
      ih (evalBatch T b a)
    obtain ⟨f1, f2, f3, f4, f5, f6, f7, f8⟩ := evalBatch_fields T b a
    refine ⟨[Event.addScalar "loss/val_loss"
        (T.criterion a.st.params b.imgs b.segs) (a.iters + 1)] ++ Δ',
      ?_, ?_, ?_, ?_, ?_, ?_, ?_, ?_, ?_, ?_, ?_⟩
    · show (evalLoop T rest (evalBatch T b a)).st.trace = _
      rw [h1, evalBatch_st_trace]
      simp [List.append_assoc]
    · rw [ctrl_append, h2]
      rfl
    · rw [markers_append, h3]
      rfl
    · show (evalLoop T rest (evalBatch T b a)).st.params = _
      rw [h4, f1]
    · show (evalLoop T rest (evalBatch T b a)).st.grads = _
      rw [h5, f2]
    · show (evalLoop T rest (evalBatch T b a)).st.metric = _
      rw [h6, f3]
    · show (evalLoop T rest (evalBatch T b a)).st.training = _
      rw [h7, f4]
    · show (evalLoop T rest (evalBatch T b a)).batch_loss = _
      rw [h8, f6, f1]
      simp
      ring
    · show (evalLoop T rest (evalBatch T b a)).val_preds = _
      rw [h9, f7, f1]
      simp
    · show (evalLoop T rest (evalBatch T b a)).val_segs = _
      rw [h10, f8]
      simp
    · show (evalLoop T rest (evalBatch T b a)).iters = _
      rw [h11, f5]
      simp [List.length_cons]
      ring

lemma save_not_mem_of_markers_nil {Δ : List Event} (h : markers Δ = [])
    (p : String) : Event.save p ∉ Δ := by
  intro hm
  have : Marker.saved p ∈ markers Δ := List.mem_filterMap.mpr ⟨_, hm, rfl⟩
  rw [h] at this
  exact List.not_mem_nil _ this

lemma evalOneEpoch_spec {P G M Img : Type} (T : Trainer P G M Img)
    (epoch : Nat) (iters : Int) (best : ℚ) (st : TState P G M)
    (b : Batch Img) (bs : List (Batch Img)) :
    ∃ l v it2 b2 st',
      evalOneEpoch T epoch iters best st (b :: bs) =
        some (l, v, it2, b2, st') ∧
      l = ((b :: bs).map
        (fun x => T.criterion st.params x.imgs x.segs)).sum /
        (((b :: bs).length : ℚ)) ∧
      v = T.mean_iou_score
        ((b :: bs).map (fun x => T.predict st.params x.imgs)).flatten
        ((b :: bs).map Batch.segs).flatten ∧
      it2 = iters + (b :: bs).length ∧
      b2 = (if best < v then v else best) ∧
      st'.params = st.params ∧
      st'.grads = st.grads ∧
      st'.metric = T.metricResetFn ∧
      ∃ Δ, st'.trace = st.trace ++ Δ ∧
        ctrl Δ = [] ∧
        markers Δ = Marker.valEnd ::
          (if best < v then
            [Marker.saved (osPathJoin T.save_dir "model_best.pth.tar")]
          else []) ∧
        (Event.save (osPathJoin T.save_dir "model_best.pth.tar") ∈ Δ ↔
          best < v) := by
  obtain ⟨Δ0, h1, h2, h3, h4, h5, h6, h7, h8, h9, h10, h11⟩ :=
    evalLoop_delta T (b :: bs)
      ⟨{ st with training := false, metric := T.metricResetFn }, iters, 0, [], []⟩
  dsimp only at h1 h4 h5 h6 h7 h8 h9 h10 h11
  rw [zero_add] at h8
  simp only [List.nil_append] at h9 h10
  by_cases hv : best < T.mean_iou_score
      ((b :: bs).map (fun x => T.predict st.params x.imgs)).flatten
      ((b :: bs).map Batch.segs).flatten
  · simp only [evalOneEpoch]
    rw [h9, h10, if_pos hv]
    refine ⟨_, _, _, _, _, rfl, ?_, rfl, ?_, ?_, ?_, ?_, ?_,
      Δ0 ++ [Event.addScalar "mIoU/val_miou"
        (T.mean_iou_score
          ((b :: bs).map (fun x => T.predict st.params x.imgs)).flatten
          ((b :: bs).map Batch.segs).flatten) ((epoch : Int)),
        Event.printMsg "Best model saved!",
        Event.save (osPathJoin T.save_dir "model_best.pth.tar")],
      ?_, ?_, ?_, ?_⟩
    · rw [h8]
    · exact h11
    · rw [if_pos hv]
    · dsimp only
      exact h4
    · dsimp only
      exact h5
    · dsimp only
      exact h6
    · dsimp only
      rw [h1]
      simp
    · rw [ctrl_append, h2]
      rfl
    · rw [markers_append, h3, if_pos hv]
      rfl
    · exact ⟨fun _ => hv, fun _ => by simp⟩
  · simp only [evalOneEpoch]
    rw [h9, h10, if_neg hv]
    refine ⟨_, _, _, _, _, rfl, ?_, rfl, ?_, ?_, ?_, ?_, ?_,
      Δ0 ++ [Event.addScalar "mIoU/val_miou"
        (T.mean_iou_score
          ((b :: bs).map (fun x => T.predict st.params x.imgs)).flatten
          ((b :: bs).map Batch.segs).flatten) ((epoch : Int))],
      ?_, ?_, ?_, ?_⟩
    · rw [h8]
    · exact h11
    · rw [if_neg hv]
    · dsimp only
      exact h4
    · dsimp only
      exact h5
    · dsimp only
      exact h6
    · dsimp only
      rw [h1]
      simp
    · rw [ctrl_append, h2]
      rfl
    · rw [markers_append, h3, if_neg hv]
      rfl
    · have hns := save_not_mem_of_markers_nil h3
        (osPathJoin T.save_dir "model_best.pth.tar")
      constructor
      · intro hmem
        rcases List.mem_append.mp hmem with hmm | hmm
        · exact absurd hmm hns
        · simp at hmm
      · intro hlt
        exact absurd hlt hv

lemma fitEpochs_markers {P G M Img : Type} (T : Trainer P G M Img)
    (tb vb : Nat → List (Batch Img)) :
    ∀ (rem epoch : Nat) (it vit : Int) (best : ℚ) (st st' : TState P G M),
      fitEpochs T tb vb rem epoch it vit best st = some st' →
      ∃ bsf : List Bool, bsf.length = rem ∧
        markers st'.trace = markers st.trace ++
          (List.zipWith (epochMarkers T.save_dir)
            (List.range' epoch rem) bsf).flatten := by
  intro rem
  induction rem with
  | zero =>
    intro epoch it vit best st st' h
    simp only [fitEpochs, Option.some.injEq] at h
    subst h
    exact ⟨[], rfl, by simp⟩
  | succ rem ih =>
    intro epoch it vit best st st' h
    cases htb : tb epoch with
    | nil =>
      rw [fitEpochs, htb] at h
      simp [runOneEpoch] at h
    | cons b bsl =>
      obtain ⟨l1, s1, it2, st1, hrun, Δ1, hΔ1, hl1, hit1, hctrl1, hm1, hlen1⟩ :=
        runOneEpoch_spec T epoch it st b bsl
      cases hvb : vb epoch with
      | nil =>
        rw [fitEpochs, htb, hrun, hvb] at h
        simp [evalOneEpoch] at h
      | cons c csl =>
        obtain ⟨l2, v2, it3, b3, st2, heval, hl2, hv2, hit3, hb3,
          hp2, hg2, hmet2, Δ2, hΔ2, hctrl2, hm2, hmem2⟩ :=
          evalOneEpoch_spec T epoch vit best st1 c csl
        rw [fitEpochs, htb, hrun] at h
        simp only [Option.bind_eq_bind', Option.some_bind'] at h
        rw [hvb, heval] at h
        simp only [Option.bind_eq_bind', Option.some_bind'] at h
        obtain ⟨bsf', hlen', hmk'⟩ := ih (epoch + 1) it2 it3 b3 _ st' h
        by_cases hbv : best < v2
        · refine ⟨true :: bsf', by simp [hlen'], ?_⟩
          rw [hmk']
          dsimp only
          rw [markers_append, markers_append, hΔ2, markers_append, hΔ1,
            markers_append, hm1, hm2, if_pos hbv]
          simp [markers, markerOf, epochMarkers, List.range'_succ,
            List.append_assoc]
        · refine ⟨false :: bsf', by simp [hlen'], ?_⟩
          rw [hmk']
          dsimp only
          rw [markers_append, markers_append, hΔ2, markers_append, hΔ1,
            markers_append, hm1, hm2, if_neg hbv]
          simp [markers, markerOf, epochMarkers, List.range'_succ,
            List.append_assoc]

lemma fit_markers {P G M Img : Type} (T : Trainer P G M Img) (epochs : Nat)
    (tb vb : Nat → List (Batch Img)) (st : TState P G M) (u : Unit)
    (st' : TState P G M) (h : fit T epochs tb vb st = some (u, st')) :
    ∃ bsf : List Bool, bsf.length = epochs ∧
      markers st'.trace = markers st.trace ++
        (List.zipWith (epochMarkers T.save_dir)
          (List.range' 1 epochs) bsf).flatten := by
  rw [fit] at h
  rcases hfe : fitEpochs T tb vb epochs 1 (-1) (-1) 0
      { st with trace := st.trace ++ [Event.printMsg "===> start training ..."] }
    with _ | s
  · rw [hfe] at h
    simp at h
  · rw [hfe] at h
    simp only [Option.bind_eq_bind', Option.some_bind', Option.pure_def,
      Option.some.injEq, Prod.mk.injEq] at h
    obtain ⟨bsf, hlen, hmk⟩ := fitEpochs_markers T tb vb epochs 1 (-1) (-1) 0 _ s hfe
    refine ⟨bsf, hlen, ?_⟩
    rw [← h.2, hmk]
    dsimp only
    rw [markers_append]
    simp [show markers [Event.printMsg "===> start training ..."] = []
      from rfl]

lemma ctrlAt_count_optStep (k i : Nat) :
    (ctrlAt k i).count Event.optStep = if (i + 1) % k = 0 then 1 else 0 := by
  by_cases h1 : i % k = 0 <;> by_cases h2 : (i + 1) % k = 0 <;>
    simp [ctrlAt, h1, h2]

lemma inLoopCtrl_count (n k : Nat) :
    (inLoopCtrl n k).count Event.optStep = n / k := by
  induction n with
  | zero => simp [inLoopCtrl]
  | succ n ih =>
    rw [inLoopCtrl, List.range_succ, List.map_append, List.flatten_append,
      List.count_append]
    rw [inLoopCtrl] at ih
    rw [ih, Nat.succ_div]
    simp [ctrlAt_count_optStep, Nat.dvd_iff_mod_eq_zero]

lemma epochMarkers_count_valEnd (sd : String) (e : Nat) (bg : Bool) :
    (epochMarkers sd e bg).count Marker.valEnd = 1 := by
  cases bg <;> rfl

lemma epochMarkers_count_trainEnd (sd : String) (e : Nat) (bg : Bool) :
    (epochMarkers sd e bg).count Marker.trainEnd = 1 := by
  cases bg <;> rfl

lemma blocks_count_valEnd (sd : String) :
    ∀ (es : List Nat) (bsf : List Bool), es.length = bsf.length →
      ((List.zipWith (epochMarkers sd) es bsf).flatten).count Marker.valEnd =
        es.length := by
  intro es
  induction es with
  | nil => intro bsf _; rfl
  | cons e es ih =>
    intro bsf hlen
    cases bsf with
    | nil => simp at hlen
    | cons bg bsf =>
      rw [List.zipWith_cons_cons, List.flatten_cons, List.count_append,
        epochMarkers_count_valEnd, ih bsf (by simpa using hlen)]
      simp only [List.length_cons]
      omega

lemma blocks_count_trainEnd (sd : String) :
    ∀ (es : List Nat) (bsf : List Bool), es.length = bsf.length →
      ((List.zipWith (epochMarkers sd) es bsf).flatten).count Marker.trainEnd =
        es.length := by
  intro es
  induction es with
  | nil => intro bsf _; rfl
  | cons e es ih =>
    intro bsf hlen
    cases bsf with
    | nil => simp at hlen
    | cons bg bsf =>
      rw [List.zipWith_cons_cons, List.flatten_cons, List.count_append,
        epochMarkers_count_trainEnd, ih bsf (by simpa using hlen)]
      simp only [List.length_cons]
      omega

/-- C1: every epoch, the best-model checkpoint (written to
save_dir/model_best.pth.tar inside `_eval_one_epoch`) is written if and
only if that validation mIoU strictly exceeds the previous best score,
and exactly in that case the best score is updated to the new validation
mIoU (first conjunct, trainer.py lines 171-174); and `fit` starts the
best score at 0.0 (second conjunct, trainer.py line 39: for any run of
`fit` whose first epoch completes, the first validation epoch is invoked
with best score 0 and validation iteration counter -1). -/
theorem claim_C1 :
    (∀ (P G M Img : Type) (T : Trainer P G M Img) (epoch : Nat)
      (iters : Int) (best : ℚ) (st : TState P G M)
      (batches : List (Batch Img)), batches ≠ [] →
      ∃ l v it2 b2 st',
        evalOneEpoch T epoch iters best st batches =
          some (l, v, it2, b2, st') ∧
        ∃ Δ, st'.trace = st.trace ++ Δ ∧
          ((Event.save (osPathJoin T.save_dir "model_best.pth.tar") ∈ Δ) ↔
            best < v) ∧
          b2 = (if best < v then v else best)) ∧
    (∀ (P G M Img : Type) (T : Trainer P G M Img) (epochs : Nat)
      (tb vb : Nat → List (Batch Img)) (st : TState P G M)
      (r : Unit × TState P G M),
      fit T (epochs + 1) tb vb st = some r →
      ∃ l s it2 st1,
        runOneEpoch T 1 (-1)
          { st with trace := st.trace ++
            [Event.printMsg "===> start training ..."] } (tb 1) =
          some (l, s, it2, st1) ∧
        ∃ l2 v2 it3 b2 st2,
          evalOneEpoch T 1 (-1) 0 st1 (vb 1) = some (l2, v2, it3, b2, st2)) := by
  constructor
  · intro P G M Img T epoch iters best st batches hne
    cases batches with
    | nil => exact absurd rfl hne
    | cons b bs =>
      obtain ⟨l, v, it2, b2, st', heq, _, _, _, hb2, _, _, _,
        Δ, hΔ, _, _, hmem⟩ := evalOneEpoch_spec T epoch iters best st b bs
      exact ⟨l, v, it2, b2, st', heq, Δ, hΔ, hmem, hb2⟩
  · intro P G M Img T epochs tb vb st r h
    simp only [fit] at h
    rcases hr : runOneEpoch T 1 (-1)
        { st with trace := st.trace ++
          [Event.printMsg "===> start training ..."] } (tb 1)
      with _ | ⟨⟨l, s, it2, st1⟩⟩
    · rw [fitEpochs, hr] at h
      simp at h
    · rcases he : evalOneEpoch T 1 (-1) 0 st1 (vb 1)
        with _ | ⟨⟨l2, v2, it3, b2, st2⟩⟩
      · rw [fitEpochs, hr] at h
        simp only [Option.bind_eq_bind', Option.some_bind'] at h
        rw [he] at h
        simp at h
      · exact ⟨l, s, it2, st1, rfl, l2, v2, it3, b2, st2, he⟩

theorem claim_C1_witness :
    (oneBatch ≠ []) ∧
    (∃ l v it2 b2 st',
      evalOneEpoch TW 1 (-1) 0 stW oneBatch = some (l, v, it2, b2, st') ∧
      ∃ Δ, st'.trace = stW.trace ++ Δ ∧
        ((Event.save (osPathJoin TW.save_dir "model_best.pth.tar") ∈ Δ) ↔
          (0 : ℚ) < v) ∧
        b2 = (if (0 : ℚ) < v then v else 0)) :=
  ⟨by decide, claim_C1.1 Nat Unit Unit Unit TW 1 (-1) 0 stW oneBatch (by decide)⟩

/-- C2: in `_run_one_epoch` with `accumulate_gradient = k`, for every
0-based batch index `idx` the gradients are zeroed exactly when
`idx % k = 0` and an in-loop optimizer step is applied exactly when
`(idx + 1) % k = 0` (the control-event projection of the epoch trace is
exactly `inLoopCtrl n k`, whose block for index `idx` holds
`Event.zeroGrad` iff `idx % k = 0` and `Event.optStep` iff
`(idx + 1) % k = 0`, followed by the trailing block of lines 111-113),
and the in-loop optimizer step count over `n` batches is `n / k`
(floor division).  The positivity hypothesis mirrors Python, where a
zero `accumulate_gradient` raises ZeroDivisionError at line 89. -/
theorem claim_C2 {P G M Img : Type} (T : Trainer P G M Img) (epoch : Nat)
    (iters : Int) (st : TState P G M) (batches : List (Batch Img))
    (hk : 0 < T.accumulate_gradient) (hne : batches ≠ []) :
    ∃ l s it2 st',
      runOneEpoch T epoch iters st batches = some (l, s, it2, st') ∧
      ∃ Δ, st'.trace = st.trace ++ Δ ∧
        ctrl Δ = inLoopCtrl batches.length T.accumulate_gradient ++
          (if (batches.length - 1) % 4 = 0
            then [Event.optStep, Event.zeroGrad] else []) ∧
        (inLoopCtrl batches.length T.accumulate_gradient).count
          Event.optStep = batches.length / T.accumulate_gradient := by
  cases batches with
  | nil => exact absurd rfl hne
  | cons b bs =>
    obtain ⟨l, s, it2, st', heq, Δ, hΔ, _, _, hctrl, _, _⟩ :=
      runOneEpoch_spec T epoch iters st b bs
    exact ⟨l, s, it2, st', heq, Δ, hΔ, hctrl, inLoopCtrl_count _ _⟩

theorem claim_C2_witness :
    (0 < TW.accumulate_gradient ∧ fourBatches ≠ []) ∧
    (∃ l s it2 st',
      runOneEpoch TW 1 (-1) stW fourBatches = some (l, s, it2, st') ∧
      ∃ Δ, st'.trace = stW.trace ++ Δ ∧
        ctrl Δ = inLoopCtrl fourBatches.length TW.accumulate_gradient ++
          (if (fourBatches.length - 1) % 4 = 0
            then [Event.optStep, Event.zeroGrad] else []) ∧
        (inLoopCtrl fourBatches.length TW.accumulate_gradient).count
          Event.optStep = fourBatches.length / TW.accumulate_gradient) :=
  ⟨⟨by decide, by decide⟩,
    claim_C2 TW 1 (-1) stW fourBatches (by decide) (by decide)⟩

/-- C3: in `_run_one_epoch`, when the final accumulation window is
incomplete (`n % k ≠ 0` for an epoch of `n` batches), the trailing
unconditional optimizer step of lines 111-113 is issued after the batch
loop exactly when the last batch index is a multiple of 4, i.e.
`(n - 1) % 4 = 0`, and no trailing step occurs otherwise: the
control-event projection of the epoch trace extends the in-loop control
events by the trailing step/zero pair iff `(n - 1) % 4 = 0`, and equals
the in-loop control events alone iff `(n - 1) % 4 ≠ 0`. -/
theorem claim_C3 {P G M Img : Type} (T : Trainer P G M Img) (epoch : Nat)
    (iters : Int) (st : TState P G M) (batches : List (Batch Img))
    (hk : 0 < T.accumulate_gradient) (hne : batches ≠ [])
    (hinc : batches.length % T.accumulate_gradient ≠ 0) :
    ∃ l s it2 st',
      runOneEpoch T epoch iters st batches = some (l, s, it2, st') ∧
      ∃ Δ, st'.trace = st.trace ++ Δ ∧
        ((ctrl Δ = inLoopCtrl batches.length T.accumulate_gradient ++
            [Event.optStep, Event.zeroGrad]) ↔
          (batches.length - 1) % 4 = 0) ∧
        ((ctrl Δ = inLoopCtrl batches.length T.accumulate_gradient) ↔
          ¬ (batches.length - 1) % 4 = 0) := by
  cases batches with
  | nil => exact absurd rfl hne
  | cons b bs =>
    obtain ⟨l, s, it2, st', heq, Δ, hΔ, _, _, hctrl, _, _⟩ :=
      runOneEpoch_spec T epoch iters st b bs
    refine ⟨l, s, it2, st', heq, Δ, hΔ, ?_, ?_⟩
    · by_cases hc : ((b :: bs).length - 1) % 4 = 0
      · rw [if_pos hc] at hctrl
        exact ⟨fun _ => hc, fun _ => hctrl⟩
      · rw [if_neg hc, List.append_nil] at hctrl
        refine ⟨fun hE => ?_, fun hcc => absurd hcc hc⟩
        exfalso
        rw [hctrl] at hE
        have := congrArg List.length hE
        simp at this
    · by_cases hc : ((b :: bs).length - 1) % 4 = 0
      · rw [if_pos hc] at hctrl
        refine ⟨fun hE => ?_, fun hcc => absurd hc hcc⟩
        exfalso
        rw [hctrl] at hE
        have := congrArg List.length hE
        simp at this
      · rw [if_neg hc, List.append_nil] at hctrl
        exact ⟨fun _ => hc, fun _ => hctrl⟩

theorem claim_C3_witness :
    (0 < TW.accumulate_gradient ∧ oneBatch ≠ [] ∧
      oneBatch.length % TW.accumulate_gradient ≠ 0) ∧
    (∃ l s it2 st',
      runOneEpoch TW 1 (-1) stW oneBatch = some (l, s, it2, st') ∧
      ∃ Δ, st'.trace = stW.trace ++ Δ ∧
        ((ctrl Δ = inLoopCtrl oneBatch.length TW.accumulate_gradient ++
            [Event.optStep, Event.zeroGrad]) ↔
          (oneBatch.length - 1) % 4 = 0) ∧
        ((ctrl Δ = inLoopCtrl oneBatch.length TW.accumulate_gradient) ↔
          ¬ (oneBatch.length - 1) % 4 = 0)) :=
  ⟨⟨by decide, by decide, by decide⟩,
    claim_C3 TW 1 (-1) stW oneBatch (by decide) (by decide) (by decide)⟩

/-- C4: for an epoch of exactly 4 training batches with
`accumulate_gradient = 2`, `_run_one_epoch` issues exactly 2 optimizer
steps and no trailing step after the loop: the control-event projection
of the epoch trace is explicit and shows the two `Event.optStep` events
exactly after the backward calls of batches 1 and 3 (0-based), with no
trailing step/zero pair after the fourth batch. -/
theorem claim_C4 :
    (runOneEpoch TW 1 (-1) stW fourBatches).map
      (fun r => ctrl r.2.2.2.trace) =
      some [Event.zeroGrad, Event.backward, Event.backward, Event.optStep,
        Event.zeroGrad, Event.backward, Event.backward, Event.optStep] ∧
    (runOneEpoch TW 1 (-1) stW fourBatches).map
      (fun r => (ctrl r.2.2.2.trace).count Event.optStep) = some 2 :=
  ⟨rfl, rfl⟩

/-- C5: if `fit` runs 3 epochs whose validation mIoU values are
0.10, 0.25, 0.20 in that order (realised by the concrete trainer `T5`,
whose logged validation mIoU sequence is exactly 1/10, 1/4, 1/5), then
the best-model checkpoint is written after epoch 1 and after epoch 2 and
not after epoch 3: the marker projection of the full `fit` trace shows a
`models/model_best.pth.tar` save inside the blocks of epochs 1 and 2
only. -/
theorem claim_C5 :
    ((⟨1, 10, by decide, by decide⟩ : ℚ) = 1 / 10 ∧
      (⟨1, 4, by decide, by decide⟩ : ℚ) = 1 / 4 ∧
      (⟨1, 5, by decide, by decide⟩ : ℚ) = 1 / 5) ∧
    (fit T5 3 (fun _ => oneBatch) (fun _ => oneBatch) stW).map
      (fun r => valIous r.2.trace) =
      some [(⟨1, 10, by decide, by decide⟩ : ℚ),
        (⟨1, 4, by decide, by decide⟩ : ℚ),
        (⟨1, 5, by decide, by decide⟩ : ℚ)] ∧
    (fit T5 3 (fun _ => oneBatch) (fun _ => oneBatch) stW).map
      (fun r => markers r.2.trace) =
      some [Marker.trainEnd, Marker.valEnd,
        Marker.saved "models/model_best.pth.tar",
        Marker.summaryLine, Marker.summaryLine, Marker.summaryLine,
        Marker.summaryLine, Marker.saved "models/model_1.pth.tar",
        Marker.trainEnd, Marker.valEnd,
        Marker.saved "models/model_best.pth.tar",
        Marker.summaryLine, Marker.summaryLine, Marker.summaryLine,
        Marker.summaryLine, Marker.saved "models/model_2.pth.tar",
        Marker.trainEnd, Marker.valEnd,
        Marker.summaryLine, Marker.summaryLine, Marker.summaryLine,
        Marker.summaryLine, Marker.saved "models/model_3.pth.tar"] :=
  ⟨⟨by rw [Rat.mk'_eq_divInt, Rat.divInt_eq_div]; norm_num,
    by rw [Rat.mk'_eq_divInt, Rat.divInt_eq_div]; norm_num,
    by rw [Rat.mk'_eq_divInt, Rat.divInt_eq_div]; norm_num⟩,
    by decide, by decide⟩

/-- C6: `fit epochs` performs exactly `epochs` iterations, each
consisting in order of one training epoch, one validation epoch, a
printed summary and a checkpoint save to
save_dir/model_(epoch).pth.tar for epoch numbers 1 through `epochs`,
and returns no value (the Unit component, Python None): whenever `fit`
returns, its marker projection appends exactly `epochs` blocks, the
block of epoch `e` (for `e` ranging over `List.range' 1 epochs`, i.e.
1 through `epochs`) being the end-of-training marker, the
end-of-validation marker, an optional best-model save, the four summary
print lines, and the numbered checkpoint save, in that order. -/
theorem claim_C6 {P G M Img : Type} (T : Trainer P G M Img) (epochs : Nat)
    (tb vb : Nat → List (Batch Img)) (st : TState P G M) (u : Unit)
    (st' : TState P G M) (h : fit T epochs tb vb st = some (u, st')) :
    u = () ∧
    ∃ bsf : List Bool, bsf.length = epochs ∧
      markers st'.trace = markers st.trace ++
        (List.zipWith (epochMarkers T.save_dir)
          (List.range' 1 epochs) bsf).flatten :=
  ⟨rfl, fit_markers T epochs tb vb st u st' h⟩

/-- Final state of the one-epoch concrete run used by the witnesses. -/
def fitWRes : TState Nat Unit Unit :=
  ((fit TW 1 (fun _ => oneBatch) (fun _ => oneBatch) stW).getD
    ((), stW)).2

theorem claim_C6_witness :
    (fit TW 1 (fun _ => oneBatch) (fun _ => oneBatch) stW =
      some ((), fitWRes)) ∧
    (() = () ∧
    ∃ bsf : List Bool, bsf.length = 1 ∧
      markers fitWRes.trace = markers stW.trace ++
        (List.zipWith (epochMarkers TW.save_dir)
          (List.range' 1 1) bsf).flatten) :=
  ⟨rfl, claim_C6 TW 1 (fun _ => oneBatch) (fun _ => oneBatch) stW ()
    fitWRes rfl⟩

/-- C7: `_eval_one_epoch` performs no parameter updates: no optimizer
step or gradient zeroing occurs during validation (the control-event
projection of its trace is empty, which also excludes backward calls),
and the model parameters are the same after it as before; its mIoU is
computed once at epoch end as `mean_iou_score` applied to the
concatenation of all buffered per-batch predictions and ground truths —
not from the incremental metric accumulator, whose state is merely
reset, and whose scoring function does not occur in the returned value
(the formula below holds for every `metricScoreFn` whatsoever); and it
returns the average loss, that epoch-level mIoU, and the updated best
score. -/
theorem claim_C7 {P G M Img : Type} (T : Trainer P G M Img) (epoch : Nat)
    (iters : Int) (best : ℚ) (st : TState P G M)
    (batches : List (Batch Img)) (hne : batches ≠ []) :
    ∃ l v it2 b2 st',
      evalOneEpoch T epoch iters best st batches =
        some (l, v, it2, b2, st') ∧
      st'.params = st.params ∧
      st'.metric = T.metricResetFn ∧
      (∃ Δ, st'.trace = st.trace ++ Δ ∧ ctrl Δ = []) ∧
      v = T.mean_iou_score
        (batches.map (fun x => T.predict st.params x.imgs)).flatten
        (batches.map Batch.segs).flatten ∧
      l = (batches.map (fun x => T.criterion st.params x.imgs x.segs)).sum /
        (batches.length : ℚ) ∧
      b2 = (if best < v then v else best) := by
  cases batches with
  | nil => exact absurd rfl hne
  | cons b bs =>
    obtain ⟨l, v, it2, b2, st', heq, hl, hv, _, hb2, hp, _, hm,
      Δ, hΔ, hctrl, _, _⟩ := evalOneEpoch_spec T epoch iters best st b bs
    exact ⟨l, v, it2, b2, st', heq, hp, hm, ⟨Δ, hΔ, hctrl⟩, hv, hl, hb2⟩

theorem claim_C7_witness :
    (oneBatch ≠ []) ∧
    (∃ l v it2 b2 st',
      evalOneEpoch TW 1 (-1) 0 stW oneBatch = some (l, v, it2, b2, st') ∧
      st'.params = stW.params ∧
      st'.metric = TW.metricResetFn ∧
      (∃ Δ, st'.trace = stW.trace ++ Δ ∧ ctrl Δ = []) ∧
      v = TW.mean_iou_score
        (oneBatch.map (fun x => TW.predict stW.params x.imgs)).flatten
        (oneBatch.map Batch.segs).flatten ∧
      l = (oneBatch.map
          (fun x => TW.criterion stW.params x.imgs x.segs)).sum /
        (oneBatch.length : ℚ) ∧
      b2 = (if (0 : ℚ) < v then v else 0)) :=
  ⟨by decide, claim_C7 TW 1 (-1) 0 stW oneBatch (by decide)⟩

/-- C8: the validation-interval option `val_epoch` (default 1) is
accepted by the argument parser but never consulted by the training
loop: `fit` in trainer.py takes no validation-interval input at all, so
for every value of `val_epoch` whatsoever it runs exactly one validation
epoch after every single training epoch — whenever `fit` returns after
`epochs` epochs, its trace gains exactly `epochs` end-of-validation
markers and exactly `epochs` end-of-training markers, independently of
the quantified `val_epoch`. -/
theorem claim_C8 :
    arg_parse.val_epoch = 1 ∧
    ∀ (val_epoch : Int) (P G M Img : Type) (T : Trainer P G M Img)
      (epochs : Nat) (tb vb : Nat → List (Batch Img)) (st : TState P G M)
      (u : Unit) (st' : TState P G M),
      fit T epochs tb vb st = some (u, st') →
      (markers st'.trace).count Marker.valEnd =
        (markers st.trace).count Marker.valEnd + epochs ∧
      (markers st'.trace).count Marker.trainEnd =
        (markers st.trace).count Marker.trainEnd + epochs := by
  refine ⟨rfl, ?_⟩
  intro val_epoch P G M Img T epochs tb vb st u st' h
  obtain ⟨bsf, hlen, hmk⟩ := fit_markers T epochs tb vb st u st' h
  have hlr : (List.range' 1 epochs).length = bsf.length := by
    rw [List.length_range', hlen]
  constructor
  · rw [hmk, List.count_append, blocks_count_valEnd T.save_dir _ _ hlr,
      List.length_range']
  · rw [hmk, List.count_append, blocks_count_trainEnd T.save_dir _ _ hlr,
      List.length_range']

theorem claim_C8_witness :
    (fit TW 1 (fun _ => oneBatch) (fun _ => oneBatch) stW =
      some ((), fitWRes)) ∧
    ((markers fitWRes.trace).count Marker.valEnd =
      (markers stW.trace).count Marker.valEnd + 1 ∧
    (markers fitWRes.trace).count Marker.trainEnd =
      (markers stW.trace).count Marker.trainEnd + 1) :=
  ⟨rfl, claim_C8.2 0 Nat Unit Unit Unit TW 1 (fun _ => oneBatch)
    (fun _ => oneBatch) stW () fitWRes rfl⟩

/-- C9: `arg_parse` on an empty command line yields exactly the declared
defaults: data_dir "hw2_data", workers 4, save_dir "models", pretrained
false, gpu 0, epoch 100, val_epoch 1, train_batch 32, test_batch 32,
lr 0.0002, weight_decay 0.0005, resume "", random_seed 42. -/
theorem claim_C9 :
    arg_parse.data_dir = "hw2_data" ∧
    arg_parse.workers = 4 ∧
    arg_parse.save_dir = "models" ∧
    arg_parse.pretrained = false ∧
    arg_parse.gpu = 0 ∧
    arg_parse.epoch = 100 ∧
    arg_parse.val_epoch = 1 ∧
    arg_parse.train_batch = 32 ∧
    arg_parse.test_batch = 32 ∧
    arg_parse.lr = 0.0002 ∧
    arg_parse.weight_decay = 0.0005 ∧
    arg_parse.resume = "" ∧
    arg_parse.random_seed = 42 :=
  ⟨rfl, rfl, rfl, rfl, rfl, rfl, rfl, rfl, rfl, rfl, rfl, rfl, rfl⟩

/-- C10: `_run_one_epoch` and `_eval_one_epoch` are only defined for
loaders yielding at least one batch: with an empty loader the training
epoch fails (the trailing-step check at line 111 and the average-loss
computation at line 118 reference the loop variable `idx` that was never
bound) and the validation epoch fails (np.concatenate applied to the
empty prediction and ground-truth buffers at line 165), both modelled by
`none`; and under the precondition of at least one batch, the returned
average loss of either function equals the sum of the per-batch losses
divided by the number of batches (for the training epoch, the per-batch
losses are the values of the per-iteration train-loss scalars it logged,
one per batch; for the validation epoch, the per-batch criterion values
directly). -/
theorem claim_C10 :
    (∀ (P G M Img : Type) (T : Trainer P G M Img) (epoch : Nat)
      (iters : Int) (st : TState P G M),
      runOneEpoch T epoch iters st [] = none) ∧
    (∀ (P G M Img : Type) (T : Trainer P G M Img) (epoch : Nat)
      (iters : Int) (best : ℚ) (st : TState P G M),
      evalOneEpoch T epoch iters best st [] = none) ∧
    (∀ (P G M Img : Type) (T : Trainer P G M Img) (epoch : Nat)
      (iters : Int) (st : TState P G M) (batches : List (Batch Img)),
      batches ≠ [] →
      ∃ l s it2 st',
        runOneEpoch T epoch iters st batches = some (l, s, it2, st') ∧
        ∃ Δ, st'.trace = st.trace ++ Δ ∧
          (trainLossVals Δ).length = batches.length ∧
          l = (trainLossVals Δ).sum / (batches.length : ℚ)) ∧
    (∀ (P G M Img : Type) (T : Trainer P G M Img) (epoch : Nat)
      (iters : Int) (best : ℚ) (st : TState P G M)
      (batches : List (Batch Img)),
      batches ≠ [] →
      ∃ l v it2 b2 st',
        evalOneEpoch T epoch iters best st batches =
          some (l, v, it2, b2, st') ∧
        l = (batches.map
            (fun x => T.criterion st.params x.imgs x.segs)).sum /
          (batches.length : ℚ)) := by
  refine ⟨fun P G M Img T epoch iters st => rfl,
    fun P G M Img T epoch iters best st => rfl, ?_, ?_⟩
  · intro P G M Img T epoch iters st batches hne
    cases batches with
    | nil => exact absurd rfl hne
    | cons b bs =>
      obtain ⟨l, s, it2, st', heq, Δ, hΔ, hl, _, _, _, hlen⟩ :=
        runOneEpoch_spec T epoch iters st b bs
      exact ⟨l, s, it2, st', heq, Δ, hΔ, hlen, hl⟩
  · intro P G M Img T epoch iters best st batches hne
    cases batches with
    | nil => exact absurd rfl hne
    | cons b bs =>
      obtain ⟨l, v, it2, b2, st', heq, hl, _, _, _, _, _, _, _, _, _, _, _⟩ :=
        evalOneEpoch_spec T epoch iters best st b bs
      exact ⟨l, v, it2, b2, st', heq, hl⟩

theorem claim_C10_witness :
    (oneBatch ≠ []) ∧
    (∃ l s it2 st',
      runOneEpoch TW 1 (-1) stW oneBatch = some (l, s, it2, st') ∧
      ∃ Δ, st'.trace = stW.trace ++ Δ ∧
        (trainLossVals Δ).length = oneBatch.length ∧
        l = (trainLossVals Δ).sum / (oneBatch.length : ℚ)) ∧
    (∃ l v it2 b2 st',
      evalOneEpoch TW 1 (-1) 0 stW oneBatch = some (l, v, it2, b2, st') ∧
      l = (oneBatch.map
          (fun x => TW.criterion stW.params x.imgs x.segs)).sum /
        (oneBatch.length : ℚ)) :=
  ⟨by decide,
    claim_C10.2.2.1 Nat Unit Unit Unit TW 1 (-1) stW oneBatch (by decide),
    claim_C10.2.2.2 Nat Unit Unit Unit TW 1 (-1) 0 stW oneBatch (by decide)⟩
